import Mathlib

/-!
Verification of the Signal-IO-EposCmd adapter (`src/signal_io_epos.cpp`)
against its design specification.

Modelling conventions:
* Vendor driver calls (the `VCS_*` primitives) are external. Each entry
  point takes an oracle record giving, for every driver call it can make,
  the status the driver returns and the values the driver writes through
  the call's output pointers.
* The `double` slots of the adapter only ever hold exact copies of integer
  driver reads, or are cast to integers before use, so values are
  modelled as `Int`.
* A device identifier is either the invalid sentinel
  (`SIGNAL_IO_DEVICE_INVALID_ID`) or a pointer to a `DeviceData` record;
  it is modelled as `Option DeviceData` (`none` = sentinel).
* Uninitialized locals are modelled as `Option` values (`none` =
  indeterminate) or, where the code branches on one, as an explicit
  `junk` parameter standing for the residual stack contents.
* Out-of-bounds array reads are modelled with `List.get?` (`none` = the
  access left the array).
-/

namespace EposCmd

/-- Per-device record (struct `DeviceData`, lines 39-48). `handle` is the
native handle returned by the driver. `outputValues`, `writeStatus` and
`writeErrorCode` are present in the struct but never consumed by the live
code (the write path that used them is commented out). -/
structure DeviceData where
  handle : Nat
  nodeId : Nat
  inputValues : List Int
  outputValues : List Int
  readStatus : Nat
  writeStatus : Nat
  readErrorCode : Nat
  writeErrorCode : Nat
deriving DecidableEq

/-- Result of a `Read` call (lines 140-157): the returned sample count,
the caller's `*ref_value` after the call (`none` = the code performed an
out-of-bounds read of `inputValues`, so the written value is
indeterminate), and the error code passed to `PrintError`, if any. -/
structure ReadOut where
  ret : Nat
  refValue : Option Int
  reported : Option Nat
deriving DecidableEq

/-- `Read` (lines 140-157). Sets `*ref_value = 0.0`, returns 0 on the
sentinel; returns 0 (after reporting the cached error) if the last
background read failed; otherwise copies `inputValues[channel]` — with no
bound check on `channel` — and returns 1. -/
def Read (dev : Option DeviceData) (channel : Nat) : ReadOut :=
  match dev with
  | none => { ret := 0, refValue := some 0, reported := none }
  | some d =>
    if d.readStatus = 0 then
      { ret := 0, refValue := some 0, reported := some d.readErrorCode }
    else
      { ret := 1, refValue := d.inputValues.get? channel, reported := none }

/-- Fault state constant `ST_FAULT` from the vendor `Definitions.h`
header (not part of this repository); its numeric value is irrelevant to
every claim, only its identity as a distinguished state. -/
def ST_FAULT : Nat := 3

/-- Driver responses for one `VCS_GetState` call: the BOOL status it
returns, the WORD state it writes on success, and the DWORD error code it
writes on failure. -/
structure StateOracle where
  getStateStatus : Nat
  stateValue : Nat
  err : Nat
deriving DecidableEq

/-- `HasError` (lines 159-173). Sentinel is an error. Otherwise queries
the state; on query failure the error is reported, but the local `state`
variable is left uninitialized (modelled by `junkState`, the residual
stack contents) and is still compared against `ST_FAULT`. Returns the
result of that comparison, paired with the reported code, if any. -/
def HasError (dev : Option DeviceData) (o : StateOracle) (junkState : Nat) :
    Bool × Option Nat :=
  match dev with
  | none => (true, none)
  | some _ =>
    let state := if o.getStateStatus = 0 then junkState else o.stateValue
    let reported := if o.getStateStatus = 0 then some o.err else none
    (decide (state = ST_FAULT), reported)

/-- `CheckInputChannel` (lines 188-195). -/
def CheckInputChannel (dev : Option DeviceData) (channel : Nat) : Bool :=
  match dev with
  | none => false
  | some _ => if channel > 2 then false else true

/-- The driver set-point / mode / enable / fault-clear calls the adapter
can issue, with the (already narrowed) argument passed. -/
inductive DriverCall
  | setPositionMust (v : Int)
  | setVelocityMust (v : Int)
  | setCurrentMust (v : Int)
  | setEnableState
  | setOperationMode (mode : Int)
  | clearFault
deriving DecidableEq

/-- Truncation of a value to a C `short` (the `(short) value` cast in
`Write`, line 209). -/
def toShort (v : Int) : Int := (v + 2 ^ 15) % 2 ^ 16 - 2 ^ 15

/-- Driver responses for the set-point call `Write` can make on each
channel: BOOL status returned and DWORD error code written. -/
structure WriteOracle where
  posStatus : Nat
  posErr : Nat
  velStatus : Nat
  velErr : Nat
  curStatus : Nat
  curErr : Nat
deriving DecidableEq

/-- Result of a `Write` call: the boolean result, the driver calls
issued, and the argument passed to `PrintError` if it was called
(`some none` = `PrintError` was called with the uninitialized local
`errorCode`). -/
structure WriteOut where
  result : Bool
  calls : List DriverCall
  reported : Option (Option Nat)
deriving DecidableEq

/-- `Write` (lines 197-220). `status` starts at 0 and `errorCode` starts
uninitialized; channels 0/1/2 dispatch to the position / velocity /
current set-point call (narrowing the value to `long` / `long` /
`short`); any other channel issues no call, so `status` stays 0 and the
failure branch reports the uninitialized `errorCode`. -/
def Write (dev : Option DeviceData) (channel : Nat) (value : Int)
    (o : WriteOracle) : WriteOut :=
  match dev with
  | none => { result := false, calls := [], reported := none }
  | some _ =>
    let step : Nat × Option Nat × List DriverCall :=
      if channel = 0 then (o.posStatus, some o.posErr, [DriverCall.setPositionMust value])
      else if channel = 1 then (o.velStatus, some o.velErr, [DriverCall.setVelocityMust value])
      else if channel = 2 then (o.curStatus, some o.curErr, [DriverCall.setCurrentMust (toShort value)])
      else (0, none, [])
    if step.1 = 0 then
      { result := false, calls := step.2.2, reported := some step.2.1 }
    else
      { result := true, calls := step.2.2, reported := none }

/-- Operation-mode constants from the vendor header (values irrelevant to
the claims; only their distinctness matters). -/
def OMD_POSITION_MODE : Int := -1

/-- Velocity operation mode (vendor header constant). -/
def OMD_VELOCITY_MODE : Int := -2

/-- Current operation mode (vendor header constant). -/
def OMD_CURRENT_MODE : Int := -3

/-- Driver responses for the two calls in `AcquireOutputChannel`:
`VCS_SetEnableState` and `VCS_SetOperationMode`. -/
structure AcquireOracle where
  enableStatus : Nat
  enableErr : Nat
  modeStatus : Nat
  modeErr : Nat
deriving DecidableEq

/-- Result of `AcquireOutputChannel`: boolean result, driver calls
issued, and the error codes reported via `PrintError`, in order. -/
structure AcquireOut where
  result : Bool
  calls : List DriverCall
  reported : List Nat
deriving DecidableEq

/-- `AcquireOutputChannel` (lines 222-241). Rejects the sentinel and
channels above 2; otherwise enables the drive and sets the mode matching
the channel, reporting (only) any failures, and returns true
unconditionally. -/
def AcquireOutputChannel (dev : Option DeviceData) (channel : Nat)
    (o : AcquireOracle) : AcquireOut :=
  match dev with
  | none => { result := false, calls := [], reported := [] }
  | some _ =>
    if channel > 2 then { result := false, calls := [], reported := [] }
    else
      let mode :=
        if channel = 1 then OMD_VELOCITY_MODE
        else if channel = 2 then OMD_CURRENT_MODE
        else OMD_POSITION_MODE
      { result := true
        calls := [DriverCall.setEnableState, DriverCall.setOperationMode mode]
        reported :=
          (if o.enableStatus = 0 then [o.enableErr] else []) ++
          (if o.modeStatus = 0 then [o.modeErr] else []) }

/-- Driver responses for one device on one polling pass of
`AsyncTransfer` (lines 265-285): for each of the three reads, the BOOL
status, the value written through the output pointer, and the DWORD
error code written; plus the error code written by `VCS_ClearFault`
(whose BOOL result the code ignores). -/
structure PollOracle where
  posStatus : Nat
  posValue : Int
  posErr : Nat
  velStatus : Nat
  velValue : Int
  velErr : Nat
  curStatus : Nat
  curValue : Int
  curErr : Nat
  clearErr : Nat
deriving DecidableEq

/-- One device's slice of a polling pass (`AsyncTransfer` loop body,
lines 269-276): read position, velocity, averaged current in that order,
each overwriting `readStatus` / `readErrorCode` and one `inputValues`
slot; then, if `readStatus` (i.e. the status of the last of the three
reads) is 0, issue a fault clear whose error-code output overwrites
`readErrorCode`. Returns the updated record and whether the clear was
issued. -/
def pollDevice (d : DeviceData) (o : PollOracle) : DeviceData × Bool :=
  let d1 := { d with readStatus := o.posStatus, readErrorCode := o.posErr,
                     inputValues := d.inputValues.set 0 o.posValue }
  let d2 := { d1 with readStatus := o.velStatus, readErrorCode := o.velErr,
                      inputValues := d1.inputValues.set 1 o.velValue }
  let d3 := { d2 with readStatus := o.curStatus, readErrorCode := o.curErr,
                      inputValues := d2.inputValues.set 2 o.curValue }
  if d3.readStatus = 0 then ({ d3 with readErrorCode := o.clearErr }, true)
  else (d3, false)

/-- The NUL terminator `strtok` writes over each consumed separator. -/
def NUL : Char := Char.ofNat 0

/-- One `strtok(_, ":")` call on the remaining buffer suffix `r` (which
holds no NUL, as a C string body): skip leading separators (left in
place), then either return `none` at end of string, or return the token;
when the token is ended by a separator that separator is overwritten
with NUL and scanning resumes after it. Result: the token (if any), the
consumed prefix as it now reads in memory, and the unscanned suffix. -/
def strtokChunk (r : List Char) : Option (List Char) × List Char × List Char :=
  let skipped := r.takeWhile (fun c => c == ':')
  let r1 := r.dropWhile (fun c => c == ':')
  match r1 with
  | [] => (none, skipped, [])
  | _ :: _ =>
    let tok := r1.takeWhile (fun c => c != ':')
    match r1.dropWhile (fun c => c != ':') with
    | [] => (some tok, skipped ++ tok, [])
    | _ :: rest2 => (some tok, skipped ++ tok ++ [NUL], rest2)

/-- `n` successive `strtok` calls on the buffer: the tokens returned and
the buffer contents after the calls. -/
def tokenizeN : Nat → List Char → List (Option (List Char)) × List Char
  | 0, r => ([], r)
  | n + 1, r =>
    let (tok, pre, rest) := strtokChunk r
    let (toks, buf) := tokenizeN n rest
    (tok :: toks, pre ++ buf)

/-- Decimal part of `strtoul` on a token (lines 80-81); the numeric
value never matters to any claim, only that a non-NULL token yields a
defined number (the hex/octal forms of base 0 are not exercised). -/
def parseNatDec (s : List Char) : Nat :=
  (s.takeWhile Char.isDigit).foldl (fun acc c => acc * 10 + (c.toNat - 48)) 0

/-- Driver responses for the calls `InitDevice` can make:
`VCS_OpenDevice` (handle returned, `none` = NULL, and error code
written), `VCS_GetProtocolStackSettings` (status, baud rate / timeout /
error code written) and `VCS_SetProtocolStackSettings` (status, error
code written). -/
structure InitOracle where
  openHandle : Option Nat
  openErr : Nat
  getStatus : Nat
  getBaud : Nat
  getTimeout : Nat
  getErr : Nat
  setStatus : Nat
  setErr : Nat
deriving DecidableEq

/-- Outcome of `InitDevice`: `ub` marks the undefined behaviour of
passing the NULL returned by `strtok` to `strtoul` (fewer than six
fields, before any driver call is made); `invalid` is the
`SIGNAL_IO_DEVICE_INVALID_ID` return after reporting an error; `opened`
is a freshly registered record. -/
inductive InitOutcome
  | ub
  | invalid (reportedErr : Nat)
  | opened (handle : Nat) (nodeId : Nat)
deriving DecidableEq

/-- The driver portion of `InitDevice` (lines 83-109): open the device
(failure reports and returns the sentinel); if the settings fetch
SUCCEEDS (status nonzero), unconditionally push the requested baud rate
(push failure reports and returns the sentinel); a fetch FAILURE is
silently ignored and the open proceeds. Second component: the
`(baudrate, timeout)` arguments of the settings push when it was issued
(the timeout being the one the fetch wrote), `none` when it was not. -/
def initDriverPhase (nodeId baudrate : Nat) (o : InitOracle) :
    InitOutcome × Option (Nat × Nat) :=
  match o.openHandle with
  | none => (InitOutcome.invalid o.openErr, none)
  | some h =>
    if o.getStatus ≠ 0 then
      if o.setStatus = 0 then (InitOutcome.invalid o.setErr, some (baudrate, o.getTimeout))
      else (InitOutcome.opened h nodeId, some (baudrate, o.getTimeout))
    else (InitOutcome.opened h nodeId, none)

/-- The parse phase of `InitDevice` (lines 76-81): six `strtok` calls on
the caller's buffer, then `strtoul` on the fifth and sixth tokens with
the casts to `unsigned short` / `unsigned int`. `none` marks the
undefined behaviour of handing `strtoul` a NULL token (it happens before
any driver call). Also returns the buffer as the `strtok` calls left
it. -/
def parsePhase (configuration : List Char) : Option (Nat × Nat) × List Char :=
  let toks := (tokenizeN 6 configuration).1
  match toks.get? 4, toks.get? 5 with
  | some (some nodeTok), some (some baudTok) =>
    (some (parseNatDec nodeTok % 2 ^ 16, parseNatDec baudTok % 2 ^ 32),
     (tokenizeN 6 configuration).2)
  | _, _ => (none, (tokenizeN 6 configuration).2)

/-- `InitDevice` (lines 74-109): the parse phase followed — when the
numeric tokens were present — by the driver phase. Also returns the
caller's buffer as the call left it. -/
def InitDevice (configuration : List Char) (o : InitOracle) :
    (InitOutcome × Option (Nat × Nat)) × List Char :=
  match (parsePhase configuration).1 with
  | some p => (initDriverPhase p.1 p.2 o, (parsePhase configuration).2)
  | none => ((InitOutcome.ub, none), (parsePhase configuration).2)

/-- Process-wide registry state (lines 50-52): the list of registered
records (abstracted to their identities), whether a joinable
`readingThread` exists, and the volatile `isRunning` flag. -/
structure RegistryState where
  runningDevices : List Nat
  threadActive : Bool
  isRunning : Bool
deriving DecidableEq

/-- The registration step at the end of a successful `InitDevice`
(lines 106-107): spawn the polling thread exactly when the registry is
empty, then append the new record. (`AsyncTransfer` sets `isRunning` on
thread startup, modelled synchronously with the spawn.) Second
component: whether a thread was spawned. -/
def initDeviceRegister (s : RegistryState) (d : Nat) : RegistryState × Bool :=
  let spawn := s.runningDevices.isEmpty
  ({ runningDevices := s.runningDevices ++ [d],
     threadActive := spawn || s.threadActive,
     isRunning := spawn || s.isRunning }, spawn)

/-- `EndDevice` (lines 112-133): no-op on the sentinel; otherwise remove
every matching record (`std::list::remove`), and exactly when the
registry is left empty clear `isRunning` and join the thread. Second
component: whether the thread was joined. -/
def endDeviceStep (s : RegistryState) (d : Option Nat) : RegistryState × Bool :=
  match d with
  | none => (s, false)
  | some dev =>
    let remaining := s.runningDevices.filter (fun x => x ≠ dev)
    if remaining.isEmpty then
      ({ runningDevices := remaining, threadActive := false, isRunning := false }, true)
    else
      ({ s with runningDevices := remaining }, false)

/-- Registry states reachable through the adapter's lifecycle entry
points: the initial state (no devices, no thread), a successful
`InitDevice`, an `EndDevice` on a registered identifier, and an
`EndDevice` on the sentinel. -/
inductive Reachable : RegistryState → Prop
  | start : Reachable { runningDevices := [], threadActive := false, isRunning := false }
  | openDevice (s : RegistryState) (d : Nat) : Reachable s →
      Reachable (initDeviceRegister s d).1
  | closeDevice (s : RegistryState) (d : Nat) : Reachable s →
      d ∈ s.runningDevices → Reachable (endDeviceStep s (some d)).1
  | closeSentinel (s : RegistryState) : Reachable s →
      Reachable (endDeviceStep s none).1

/-- Sample record whose last background read succeeded. -/
def sampleOkDevice : DeviceData :=
  { handle := 1, nodeId := 2, inputValues := [4, 5, 6], outputValues := [0, 0, 0],
    readStatus := 1, writeStatus := 0, readErrorCode := 0, writeErrorCode := 0 }

/-- Sample record whose last background read failed with code 42 while
nonzero values are cached. -/
def sampleFailDevice : DeviceData :=
  { handle := 1, nodeId := 2, inputValues := [5, 6, 7], outputValues := [0, 0, 0],
    readStatus := 0, writeStatus := 0, readErrorCode := 42, writeErrorCode := 0 }

/-- C3: the sentinel half of the claim holds (`Read` on the invalid id
returns 0 with the value left at 0.0), but at the failing input — a
valid device whose last background read succeeded, channel 3 — `Read`
returns 1 and reads `inputValues[3]` out of bounds instead of returning
0 with the value at 0.0: the code never checks the channel index. -/
theorem c3_read_channel_bug :
    (Read (some sampleOkDevice) 3).ret = 1 ∧
    (Read (some sampleOkDevice) 3).refValue = none ∧
    (∀ channel : Nat,
      Read none channel = { ret := 0, refValue := some 0, reported := none }) :=
  ⟨by decide, by decide, fun _ => rfl⟩

/-- C4 counterexample: for a valid device whose last background read
failed, `Read` returns 0 and reports the cached code 42, but the
caller's value is set to 0.0 even though 5 is cached in
`inputValues[0]` — the output is not the last cached value. -/
theorem c4_read_failure_counterexample :
    (Read (some sampleFailDevice) 0).ret = 0 ∧
    (Read (some sampleFailDevice) 0).refValue = some 0 ∧
    (Read (some sampleFailDevice) 0).reported = some 42 ∧
    sampleFailDevice.inputValues.get? 0 = some 5 := by decide

/-- C4 (amended): for a valid id and a channel in \x7b0,1,2\x7d, if the
last background read succeeded `Read` returns 1 with the cached
`inputValues[channel]`; if it failed, `Read` reports the cached error,
returns 0, and leaves the caller's value at the 0.0 default written on
entry — the record's cache is untouched but is not copied out. -/
theorem c4_read_valid_channel (d : DeviceData) (channel : Nat)
    (hch : channel ≤ 2) (hlen : d.inputValues.length = 3) :
    (d.readStatus ≠ 0 →
      (Read (some d) channel).ret = 1 ∧
      (Read (some d) channel).refValue = d.inputValues.get? channel ∧
      (d.inputValues.get? channel).isSome = true ∧
      (Read (some d) channel).reported = none) ∧
    (d.readStatus = 0 →
      Read (some d) channel =
        { ret := 0, refValue := some 0, reported := some d.readErrorCode }) := by
  obtain ⟨x, y, z, hxyz⟩ := List.length_eq_three.mp hlen
  constructor
  · intro h
    refine ⟨by simp [Read, h], by simp [Read, h], ?_, by simp [Read, h]⟩
    rw [hxyz]
    interval_cases channel <;> simp
  · intro h
    simp [Read, h]

/-- C4 amended-theorem witness at a concrete device and channel. -/
theorem c4_read_valid_channel_witness :
    (Read (some sampleOkDevice) 1).ret = 1 ∧
    (Read (some sampleOkDevice) 1).refValue = sampleOkDevice.inputValues.get? 1 :=
  ⟨((c4_read_valid_channel sampleOkDevice 1 (by decide) rfl).1 (by decide)).1,
   ((c4_read_valid_channel sampleOkDevice 1 (by decide) rfl).1 (by decide)).2.1⟩

/-- C7: the sentinel half of the claim holds (invalid id yields true),
but at the failing input — a valid device whose state query fails while
the uninitialized `state` local happens to retain the fault value on the
stack — `HasError` reports the error and then returns true, not the
claimed false: the code compares the uninitialized local against
`ST_FAULT`. -/
theorem c7_haserror_uninitialized_state :
    (HasError (some sampleOkDevice)
      { getStateStatus := 0, stateValue := 0, err := 21 } ST_FAULT).1 = true ∧
    (HasError (some sampleOkDevice)
      { getStateStatus := 0, stateValue := 0, err := 21 } ST_FAULT).2 = some 21 ∧
    (∀ (o : StateOracle) (junk : Nat), HasError none o junk = (true, none)) :=
  ⟨by decide, by decide, fun _ _ => rfl⟩

/-- C8: `CheckInputChannel` and `AcquireOutputChannel` return false
exactly when the id is the sentinel or the channel exceeds 2; for a
valid id and channel in \x7b0,1,2\x7d, `AcquireOutputChannel` returns
true whatever the two driver calls returned, their failures being only
reported. -/
theorem c8_channel_validation :
    (∀ (dev : Option DeviceData) (channel : Nat),
      CheckInputChannel dev channel = false ↔ (dev = none ∨ 2 < channel)) ∧
    (∀ (dev : Option DeviceData) (channel : Nat) (o : AcquireOracle),
      (AcquireOutputChannel dev channel o).result = false ↔ (dev = none ∨ 2 < channel)) ∧
    (∀ (d : DeviceData) (channel : Nat) (o : AcquireOracle), channel ≤ 2 →
      (AcquireOutputChannel (some d) channel o).result = true ∧
      (AcquireOutputChannel (some d) channel o).reported =
        (if o.enableStatus = 0 then [o.enableErr] else []) ++
        (if o.modeStatus = 0 then [o.modeErr] else [])) := by
  refine ⟨fun dev channel => ?_, fun dev channel o => ?_, fun d channel o hch => ?_⟩
  · cases dev
    · simp [CheckInputChannel]
    · simp only [CheckInputChannel]
      split <;> simp_all
  · cases dev
    · simp [AcquireOutputChannel]
    · simp only [AcquireOutputChannel]
      split <;> simp_all
  · have hch2 : ¬ channel > 2 := by omega
    exact ⟨by simp [AcquireOutputChannel, hch2], by simp [AcquireOutputChannel, hch2]⟩

/-- C8 witness: valid device, channel 1, enable call failing with code
9, mode call succeeding. -/
theorem c8_channel_validation_witness :
    (AcquireOutputChannel (some sampleOkDevice) 1
      { enableStatus := 0, enableErr := 9, modeStatus := 1, modeErr := 0 }).result = true ∧
    (AcquireOutputChannel (some sampleOkDevice) 1
      { enableStatus := 0, enableErr := 9, modeStatus := 1, modeErr := 0 }).reported = [9] :=
  ⟨(c8_channel_validation.2.2 sampleOkDevice 1 _ (by decide)).1,
   ((c8_channel_validation.2.2 sampleOkDevice 1 _ (by decide)).2).trans (by decide)⟩

/-- C9: for a valid device and a channel outside \x7b0,1,2\x7d, `Write`
issues none of the three set-point calls and returns false, handing the
error reporter the uninitialized local `errorCode`. -/
theorem c9_write_invalid_channel (d : DeviceData) (channel : Nat) (value : Int)
    (o : WriteOracle) (hch : 2 < channel) :
    Write (some d) channel value o =
      { result := false, calls := [], reported := some none } := by
  have h0 : channel ≠ 0 := by omega
  have h1 : channel ≠ 1 := by omega
  have h2 : channel ≠ 2 := by omega
  simp [Write, h0, h1, h2]

/-- C9 witness at channel 5. -/
theorem c9_write_invalid_channel_witness :
    Write (some sampleOkDevice) 5 77
      { posStatus := 1, posErr := 0, velStatus := 1, velErr := 0,
        curStatus := 1, curErr := 0 } =
      { result := false, calls := [], reported := some none } :=
  c9_write_invalid_channel sampleOkDevice 5 77 _ (by decide)

/-- Polling-pass oracle where the position read fails with code 77 but
the velocity and averaged-current reads succeed. -/
def c2PollOracle : PollOracle :=
  { posStatus := 0, posValue := 11, posErr := 77,
    velStatus := 1, velValue := 22, velErr := 3,
    curStatus := 1, curValue := 33, curErr := 4, clearErr := 99 }

/-- C2 counterexample: on a pass where the position read fails (driver
result 0) while the later reads succeed, no fault clear is issued at
all; the pass even ends with `readStatus = 1` and with the failed read's
code 77 overwritten by the last read's code 4 — the clear is keyed only
on the status of the final (averaged-current) read. -/
theorem c2_poll_counterexample :
    c2PollOracle.posStatus = 0 ∧
    (pollDevice sampleOkDevice c2PollOracle).2 = false ∧
    (pollDevice sampleOkDevice c2PollOracle).1.readStatus = 1 ∧
    (pollDevice sampleOkDevice c2PollOracle).1.readErrorCode = 4 := by decide

/-- C2 (amended): a polling pass reads position, velocity, averaged
current in that order into `inputValues[0..2]`, and afterwards
`readStatus`/`readErrorCode` reflect only the last of the three reads;
the fault clear is issued exactly when that last read failed, its
error-code output then overwriting `readErrorCode` (`readStatus` stays
0). Earlier read failures are overwritten and trigger no clear. -/
theorem c2_poll_pass (d : DeviceData) (o : PollOracle)
    (hlen : d.inputValues.length = 3) :
    (pollDevice d o).1.inputValues = [o.posValue, o.velValue, o.curValue] ∧
    (pollDevice d o).1.readStatus = o.curStatus ∧
    (pollDevice d o).2 = decide (o.curStatus = 0) ∧
    (pollDevice d o).1.readErrorCode =
      (if o.curStatus = 0 then o.clearErr else o.curErr) := by
  obtain ⟨x, y, z, hxyz⟩ := List.length_eq_three.mp hlen
  by_cases hc : o.curStatus = 0 <;>
    simp [pollDevice, hxyz, hc]

/-- C2 amended-theorem witness at a concrete device and oracle. -/
theorem c2_poll_pass_witness :
    (pollDevice sampleOkDevice c2PollOracle).1.inputValues =
      [c2PollOracle.posValue, c2PollOracle.velValue, c2PollOracle.curValue] ∧
    (pollDevice sampleOkDevice c2PollOracle).2 = decide (c2PollOracle.curStatus = 0) :=
  ⟨(c2_poll_pass sampleOkDevice c2PollOracle rfl).1,
   (c2_poll_pass sampleOkDevice c2PollOracle rfl).2.2.1⟩

/-- Open oracle where the device opens (handle 7) but the
protocol-stack settings fetch fails with code 13. -/
def c5FetchFailOracle : InitOracle :=
  { openHandle := some 7, openErr := 0, getStatus := 0, getBaud := 0,
    getTimeout := 0, getErr := 13, setStatus := 1, setErr := 0 }

/-- Open oracle where the fetch succeeds and the fetched baud rate
already equals the requested 1000000. -/
def c5EqualSettingsOracle : InitOracle :=
  { openHandle := some 7, openErr := 0, getStatus := 1, getBaud := 1000000,
    getTimeout := 500, getErr := 0, setStatus := 1, setErr := 0 }

/-- C5 counterexample: (a) when the settings fetch fails, `Open` does
not report it or return the sentinel — it registers the device anyway,
skipping the push; (b) when the fetch succeeds with the fetched baud
rate already equal to the requested one, the push is issued all the
same — it is not conditioned on the settings differing. -/
theorem c5_open_counterexample :
    c5FetchFailOracle.getStatus = 0 ∧
    (initDriverPhase 1 1000000 c5FetchFailOracle).1 = InitOutcome.opened 7 1 ∧
    (initDriverPhase 1 1000000 c5FetchFailOracle).2 = none ∧
    c5EqualSettingsOracle.getBaud = 1000000 ∧
    (initDriverPhase 1 1000000 c5EqualSettingsOracle).2 = some (1000000, 500) := by
  decide

/-- C5 (amended): `Open` reports and returns the sentinel exactly when
the device open fails or the settings push fails, and then creates no
record; a settings-fetch failure is silently ignored (no push, the open
proceeds to register the device); the push is issued exactly when the
fetch succeeds, unconditionally on the fetched values. -/
theorem c5_open_driver_phase (nodeId baudrate : Nat) (o : InitOracle) :
    (o.openHandle = none →
      initDriverPhase nodeId baudrate o = (InitOutcome.invalid o.openErr, none)) ∧
    (∀ h, o.openHandle = some h → o.getStatus ≠ 0 → o.setStatus = 0 →
      initDriverPhase nodeId baudrate o =
        (InitOutcome.invalid o.setErr, some (baudrate, o.getTimeout))) ∧
    (∀ h, o.openHandle = some h → o.getStatus ≠ 0 → o.setStatus ≠ 0 →
      initDriverPhase nodeId baudrate o =
        (InitOutcome.opened h nodeId, some (baudrate, o.getTimeout))) ∧
    (∀ h, o.openHandle = some h → o.getStatus = 0 →
      initDriverPhase nodeId baudrate o = (InitOutcome.opened h nodeId, none)) := by
  refine ⟨fun hn => by simp [initDriverPhase, hn],
          fun h hs hg hset => by simp [initDriverPhase, hs, hg, hset],
          fun h hs hg hset => by simp [initDriverPhase, hs, hg, hset],
          fun h hs hg => by simp [initDriverPhase, hs, hg]⟩

/-- C5 amended-theorem witness: fetch-failure oracle. -/
theorem c5_open_driver_phase_witness :
    initDriverPhase 1 1000000 c5FetchFailOracle = (InitOutcome.opened 7 1, none) :=
  (c5_open_driver_phase 1 1000000 c5FetchFailOracle).2.2.2 7 rfl rfl

/-- A non-nil list has `isEmpty = false`. -/
theorem isEmpty_false_of_ne_nil (l : List Nat) (h : l ≠ []) : l.isEmpty = false := by
  cases l with
  | nil => exact absurd rfl h
  | cons a t => rfl

/-- Unfolding of `endDeviceStep` on a non-sentinel id. -/
theorem endDeviceStep_some_eq (s : RegistryState) (d : Nat) :
    endDeviceStep s (some d) =
      (if (s.runningDevices.filter (fun x => x ≠ d)).isEmpty then
        ({ runningDevices := s.runningDevices.filter (fun x => x ≠ d),
           threadActive := false, isRunning := false }, true)
      else
        ({ s with runningDevices := s.runningDevices.filter (fun x => x ≠ d) },
         false)) := rfl

/-- In every reachable registry state, the polling thread exists and the
running flag is set exactly when the registry is non-empty. -/
theorem reachable_thread_invariant (s : RegistryState) (h : Reachable s) :
    s.threadActive = !s.runningDevices.isEmpty ∧
    s.isRunning = !s.runningDevices.isEmpty := by
  induction h with
  | start => exact ⟨rfl, rfl⟩
  | openDevice s d hs ih =>
    obtain ⟨ih1, ih2⟩ := ih
    cases hemp : s.runningDevices.isEmpty <;>
      simp_all [initDeviceRegister, hemp]
  | closeDevice s d hs hmem ih =>
    obtain ⟨ih1, ih2⟩ := ih
    have hne : s.runningDevices.isEmpty = false :=
      isEmpty_false_of_ne_nil _ (List.ne_nil_of_mem hmem)
    rw [endDeviceStep_some_eq]
    cases hfe : (s.runningDevices.filter (fun x => x ≠ d)).isEmpty
    · simp at hfe
      simp [ih1, ih2, hne, hfe]
    · simp at hfe
      simp
      exact hfe
  | closeSentinel s hs ih => exact ih

/-- C1: the polling thread's lifecycle follows the registry size:
`InitDevice` spawns the thread exactly when the registry was empty
before insertion (so the first open starts the one loop and later opens
start none), `EndDevice` clears the running flag and joins exactly when
the removal leaves the registry empty, and in every reachable state the
thread is absent when the registry is empty and present when it is
not. -/
theorem c1_thread_lifecycle :
    (∀ (s : RegistryState) (d : Nat),
      (initDeviceRegister s d).2 = s.runningDevices.isEmpty) ∧
    (∀ (s : RegistryState) (d : Nat),
      (endDeviceStep s (some d)).2 =
        (s.runningDevices.filter (fun x => x ≠ d)).isEmpty ∧
      ((endDeviceStep s (some d)).2 = true →
        (endDeviceStep s (some d)).1.isRunning = false ∧
        (endDeviceStep s (some d)).1.threadActive = false)) ∧
    (∀ s : RegistryState, Reachable s →
      (s.runningDevices.isEmpty = true → s.threadActive = false) ∧
      (s.runningDevices.isEmpty = false → s.threadActive = true)) := by
  refine ⟨fun s d => rfl, fun s d => ?_, fun s hs => ?_⟩
  · rw [endDeviceStep_some_eq]
    cases hfe : (s.runningDevices.filter (fun x => x ≠ d)).isEmpty <;>
      (simp at hfe; simp [hfe])
  · have hinv := (reachable_thread_invariant s hs).1
    cases hemp : s.runningDevices.isEmpty <;> simp_all

/-- C1 witness: in the initial reachable state (empty registry) the
thread is absent; closing the sole device joins it. -/
theorem c1_thread_lifecycle_witness :
    ({ runningDevices := [], threadActive := false, isRunning := false } :
        RegistryState).threadActive = false ∧
    (endDeviceStep { runningDevices := [5], threadActive := true, isRunning := true }
        (some 5)).1.isRunning = false :=
  ⟨(c1_thread_lifecycle.2.2 _ Reachable.start).1 rfl,
   ((c1_thread_lifecycle.2.1 _ 5).2 (by decide)).1⟩

/-- The separator skip of `strtok` takes nothing when the buffer head is
not a separator. -/
theorem takeWhile_sep_nil (x : Char) (xs : List Char) (hx : x ≠ ':') :
    (x :: xs).takeWhile (fun c => c == ':') = [] := by
  simp [List.takeWhile_cons, hx]

/-- The separator skip of `strtok` drops nothing when the buffer head is
not a separator. -/
theorem dropWhile_sep_self (x : Char) (xs : List Char) (hx : x ≠ ':') :
    (x :: xs).dropWhile (fun c => c == ':') = x :: xs := by
  simp [List.dropWhile_cons, hx]

/-- Scanning up to the next separator takes exactly the separator-free
field before it. -/
theorem takeWhile_until_sep (f rest : List Char) (hf : ':' ∉ f) :
    (f ++ ':' :: rest).takeWhile (fun c => c != ':') = f := by
  induction f with
  | nil => simp
  | cons x xs ih =>
    have hx : x ≠ ':' := fun h => hf (by simp [h])
    have hxs : ':' ∉ xs := fun h => hf (by simp [h])
    simp [List.takeWhile_cons, hx, ih hxs]

/-- Scanning up to the next separator leaves the separator and what
follows it. -/
theorem dropWhile_until_sep (f rest : List Char) (hf : ':' ∉ f) :
    (f ++ ':' :: rest).dropWhile (fun c => c != ':') = ':' :: rest := by
  induction f with
  | nil => simp
  | cons x xs ih =>
    have hx : x ≠ ':' := fun h => hf (by simp [h])
    have hxs : ':' ∉ xs := fun h => hf (by simp [h])
    simp [List.dropWhile_cons, hx, ih hxs]

/-- Scanning a separator-free tail takes all of it. -/
theorem takeWhile_no_sep (f : List Char) (hf : ':' ∉ f) :
    f.takeWhile (fun c => c != ':') = f := by
  induction f with
  | nil => rfl
  | cons x xs ih =>
    have hx : x ≠ ':' := fun h => hf (by simp [h])
    have hxs : ':' ∉ xs := fun h => hf (by simp [h])
    simp [List.takeWhile_cons, hx, ih hxs]

/-- Scanning a separator-free tail drops nothing beyond it. -/
theorem dropWhile_no_sep (f : List Char) (hf : ':' ∉ f) :
    f.dropWhile (fun c => c != ':') = [] := by
  induction f with
  | nil => rfl
  | cons x xs ih =>
    have hx : x ≠ ':' := fun h => hf (by simp [h])
    have hxs : ':' ∉ xs := fun h => hf (by simp [h])
    simp [List.dropWhile_cons, hx, ih hxs]

/-- A `strtok` call on a buffer beginning with a non-empty
separator-free field followed by a separator returns the field,
overwrites that separator with NUL, and resumes after it. -/
theorem strtokChunk_field (f rest : List Char) (hne : f ≠ []) (hf : ':' ∉ f) :
    strtokChunk (f ++ ':' :: rest) = (some f, f ++ [NUL], rest) := by
  obtain ⟨x, xs, rfl⟩ := List.exists_cons_of_ne_nil hne
  have hx : x ≠ ':' := fun h => hf (by simp [h])
  have ht := takeWhile_until_sep (x :: xs) rest hf
  have hd := dropWhile_until_sep (x :: xs) rest hf
  have hsk := takeWhile_sep_nil x (xs ++ ':' :: rest) hx
  have hds := dropWhile_sep_self x (xs ++ ':' :: rest) hx
  simp only [List.cons_append] at ht hd ⊢
  simp only [strtokChunk, hsk, hds, ht, hd]
  simp

/-- A `strtok` call on a final non-empty separator-free field returns the
field, writes nothing, and reaches the end of the string. -/
theorem strtokChunk_last (f : List Char) (hne : f ≠ []) (hf : ':' ∉ f) :
    strtokChunk f = (some f, f, []) := by
  obtain ⟨x, xs, rfl⟩ := List.exists_cons_of_ne_nil hne
  have hx : x ≠ ':' := fun h => hf (by simp [h])
  have ht := takeWhile_no_sep (x :: xs) hf
  have hd := dropWhile_no_sep (x :: xs) hf
  have hsk := takeWhile_sep_nil x xs hx
  have hds := dropWhile_sep_self x xs hx
  simp only [strtokChunk, hsk, hds, ht, hd]
  simp

/-- Unfolding of one `strtok` call inside `tokenizeN`. -/
theorem tokenizeN_succ (n : Nat) (r : List Char) :
    tokenizeN (n + 1) r =
      ((strtokChunk r).1 :: (tokenizeN n (strtokChunk r).2.2).1,
       (strtokChunk r).2.1 ++ (tokenizeN n (strtokChunk r).2.2).2) := rfl

/-- The buffer `InitDevice` hands back is the one the six `strtok`
calls produced. -/
theorem initDevice_buffer (cfg : List Char) (o : InitOracle) :
    (InitDevice cfg o).2 = (tokenizeN 6 cfg).2 := by
  have hp : (parsePhase cfg).2 = (tokenizeN 6 cfg).2 := by
    simp only [parsePhase]
    split <;> rfl
  simp only [InitDevice]
  split <;> simp [hp]

/-- Five-character descriptor holding a single field and no separators
(fewer than six fields). -/
def shortConfig : List Char := ['E', 'P', 'O', 'S', '2']

/-- Open oracle for an unopenable device: `VCS_OpenDevice` returns NULL
and writes error code 5. -/
def noDeviceOracle : InitOracle :=
  { openHandle := none, openErr := 5, getStatus := 0, getBaud := 0,
    getTimeout := 0, getErr := 0, setStatus := 0, setErr := 0 }

/-- Well-formed six-field descriptor EPOS2:MSV2:USB:USB0:1:115200. -/
def wellFormedConfig : List Char :=
  ['E','P','O','S','2'] ++ ':' :: (['M','S','V','2'] ++ ':' :: (['U','S','B'] ++
    ':' :: (['U','S','B','0'] ++ ':' :: (['1'] ++ ':' :: ['1','1','5','2','0','0']))))

/-- C6: on a descriptor with fewer than six fields, `InitDevice` reaches
undefined behaviour whatever the driver does — `strtok` returns NULL for
the missing numeric field and that NULL is handed to `strtoul`, before
any driver call is made — instead of the claimed graceful sentinel
return; the unopenable-device half of the claim does hold: on a
well-formed descriptor with a driver that opens no device, the outcome
is the reported invalid-sentinel return. -/
theorem c6_short_descriptor_ub (o : InitOracle) :
    (InitDevice shortConfig o).1.1 = InitOutcome.ub ∧
    (InitDevice wellFormedConfig noDeviceOracle).1.1 =
      InitOutcome.invalid noDeviceOracle.openErr := by
  exact ⟨rfl, by decide⟩

/-- A six-field buffer with the given character between the fields. -/
def sixFields (a b c d e f : List Char) (s : Char) : List Char :=
  a ++ s :: (b ++ s :: (c ++ s :: (d ++ s :: (e ++ s :: f))))

set_option maxHeartbeats 1600000 in
/-- C10: a call of `Open` on a well-formed six-field descriptor
overwrites each of the five ':' separators in the caller's buffer with a
NUL terminator, so the buffer after the call differs from the buffer
passed in. -/
theorem c10_buffer_mutation (a b c d e f : List Char) (o : InitOracle)
    (ha : a ≠ []) (ha2 : ':' ∉ a) (hb : b ≠ []) (hb2 : ':' ∉ b)
    (hc : c ≠ []) (hc2 : ':' ∉ c) (hd : d ≠ []) (hd2 : ':' ∉ d)
    (he : e ≠ []) (he2 : ':' ∉ e) (hf : f ≠ []) (hf2 : ':' ∉ f) :
    (InitDevice (sixFields a b c d e f ':') o).2 = sixFields a b c d e f NUL ∧
    (InitDevice (sixFields a b c d e f ':') o).2 ≠ sixFields a b c d e f ':' := by
  have h1 := strtokChunk_field a (b ++ ':' :: (c ++ ':' :: (d ++ ':' :: (e ++ ':' :: f)))) ha ha2
  have h2 := strtokChunk_field b (c ++ ':' :: (d ++ ':' :: (e ++ ':' :: f))) hb hb2
  have h3 := strtokChunk_field c (d ++ ':' :: (e ++ ':' :: f)) hc hc2
  have h4 := strtokChunk_field d (e ++ ':' :: f) hd hd2
  have h5 := strtokChunk_field e f he he2
  have h6 := strtokChunk_last f hf hf2
  have hbuf : (tokenizeN 6 (sixFields a b c d e f ':')).2 = sixFields a b c d e f NUL := by
    rw [sixFields, sixFields, tokenizeN_succ, h1]
    rw [show (5 : Nat) = 4 + 1 from rfl, tokenizeN_succ]
    simp only [h2]
    rw [show (4 : Nat) = 3 + 1 from rfl, tokenizeN_succ]
    simp only [h3]
    rw [show (3 : Nat) = 2 + 1 from rfl, tokenizeN_succ]
    simp only [h4]
    rw [show (2 : Nat) = 1 + 1 from rfl, tokenizeN_succ]
    simp only [h5]
    rw [show (1 : Nat) = 0 + 1 from rfl, tokenizeN_succ]
    simp only [h6]
    simp [tokenizeN]
  refine ⟨(initDevice_buffer _ o).trans hbuf, ?_⟩
  rw [(initDevice_buffer _ o).trans hbuf]
  intro hEq
  have hold : ':' ∈ sixFields a b c d e f ':' := by
    simp [sixFields]
  rw [← hEq] at hold
  have hNUL : ¬ ((':' : Char) = NUL) := by decide
  simp only [sixFields, List.mem_append, List.mem_cons] at hold
  tauto

/-- C10 witness on the concrete descriptor EPOS2:MSV2:USB:USB0:1:115200. -/
theorem c10_buffer_mutation_witness :
    (InitDevice
        (sixFields ['E','P','O','S','2'] ['M','S','V','2'] ['U','S','B']
          ['U','S','B','0'] ['1'] ['1','1','5','2','0','0'] ':')
        c5FetchFailOracle).2 =
      sixFields ['E','P','O','S','2'] ['M','S','V','2'] ['U','S','B']
        ['U','S','B','0'] ['1'] ['1','1','5','2','0','0'] NUL :=
  (c10_buffer_mutation _ _ _ _ _ _ c5FetchFailOracle
    (by decide) (by decide) (by decide) (by decide) (by decide) (by decide)
    (by decide) (by decide) (by decide) (by decide) (by decide) (by decide)).1

end EposCmd
